import Mathlib

/-!
Shallow embedding of the response-caching layer of `weather_app.py`
(Luckybox59/weather-app) and proofs about its lookup/upsert/TTL behaviour.

Modelling conventions:
* A JSON cache entry (a Python dict) is a structure of optional fields,
  mirroring `dict.get` returning `None` for absent keys.
* Timestamps are integers counting seconds; `datetime.now()` is an explicit
  `now` parameter and `timedelta(hours=h)` is `h * 3600`.  The stored
  `fetched_at` field is `Option (Option ℤ)`: `none` means the key is absent
  from the dict (so `entry['fetched_at']` raises `KeyError`), `some none`
  means the key is present but its value is not a well-formed ISO-8601 string
  (so `datetime.fromisoformat` raises `ValueError`), and `some (some t)`
  means it parses to the timestamp `t`.
* Coordinates are rationals; Python compares floats with `==`, i.e. exact
  equality of (dyadic rational) values, which exact equality on `ℚ` mirrors.
* A payload (the opaque upstream JSON object) is modelled as an association
  list of string fields; Python truthiness of a dict is nonemptiness.
* Python exceptions escaping a function are modelled with `Except PyErr`.
-/

deriving instance DecidableEq for Except

/-- Python's `str.lower()`, restricted to ASCII case-folding (every city key
appearing in the claims is ASCII). -/
def pyLower (s : String) : String := ⟨s.data.map Char.toLower⟩

/-- An upstream JSON payload, modelled as a flat JSON object. -/
abbrev Payload := List (String × String)

/-- Exceptions that the cache-layer code can raise. -/
inductive PyErr where
  | keyError
  | valueError
  deriving DecidableEq, Repr

/-- One element of the JSON list held in `weather_cache.json`: a dict with
optional fields, as written by `_update_cache` (city form) or
`_update_cache_by_coords` (coordinate form), or anything an external writer
put there. -/
structure CacheEntry where
  city : Option String
  lat : Option ℚ
  lon : Option ℚ
  type : Option String
  fetched_at : Option (Option ℤ)
  data : Option Payload
  deriving DecidableEq, Repr

/-- `CACHE_TTL_HOURS = 1` (weather_app.py line 15). -/
def CACHE_TTL_HOURS : ℕ := 1

/-- The TTL, in hours, against which `_get_from_cache` checks freshness
(`timedelta(hours=CACHE_TTL_HOURS)` on line 60). -/
def ttlCityHours : ℕ := CACHE_TTL_HOURS

/-- The TTL, in hours, against which `_get_from_cache_by_coords` checks
freshness (`timedelta(hours=CACHE_TTL_HOURS)` on line 79). -/
def ttlCoordsHours : ℕ := CACHE_TTL_HOURS

/-- The city-variant TTL in seconds. -/
def ttlCitySeconds : ℤ := ttlCityHours * 3600

/-- The coordinate-variant TTL in seconds. -/
def ttlCoordsSeconds : ℤ := ttlCoordsHours * 3600

/-- The match test of the city variant:
`entry.get('city') == city_lower and entry.get('type') == req_type`. -/
def isMatchCity (cityLower reqType : String) (e : CacheEntry) : Bool :=
  e.city == some cityLower && e.type == some reqType

/-- The match test of the coordinate variant:
`entry.get('lat') == lat and entry.get('lon') == lon and entry.get('type') == req_type`. -/
def isMatchCoord (lat lon : ℚ) (reqType : String) (e : CacheEntry) : Bool :=
  e.lat == some lat && e.lon == some lon && e.type == some reqType

/-- The loop of `_get_from_cache` (weather_app.py lines 57-63), after
`city_lower = city.lower()` has been computed: scan for the first entry whose
`city` and `type` match; on a match, read `entry['fetched_at']` (KeyError if
absent), parse it (ValueError if malformed), and return `entry['data']` if
`now - fetched_at < timedelta(hours=CACHE_TTL_HOURS)` strictly, else `None`. -/
def getFromCacheList (l : List CacheEntry) (now : ℤ) (cityLower reqType : String) :
    Except PyErr (Option Payload) :=
  match l with
  | [] => .ok none
  | e :: rest =>
    if isMatchCity cityLower reqType e then
      match e.fetched_at with
      | none => .error .keyError
      | some none => .error .valueError
      | some (some t) =>
        if now - t < ttlCitySeconds then
          match e.data with
          | none => .error .keyError
          | some p => .ok (some p)
        else .ok none
    else getFromCacheList rest now cityLower reqType

/-- `_get_from_cache(city, req_type)` over an already-loaded entry list:
lower-cases the city, then scans. -/
def getFromCache (l : List CacheEntry) (now : ℤ) (city reqType : String) :
    Except PyErr (Option Payload) :=
  getFromCacheList l now (pyLower city) reqType

/-- The loop of `_get_from_cache_by_coords` (weather_app.py lines 76-82). -/
def getFromCacheByCoords (l : List CacheEntry) (now : ℤ) (lat lon : ℚ)
    (reqType : String) : Except PyErr (Option Payload) :=
  match l with
  | [] => .ok none
  | e :: rest =>
    if isMatchCoord lat lon reqType e then
      match e.fetched_at with
      | none => .error .keyError
      | some none => .error .valueError
      | some (some t) =>
        if now - t < ttlCoordsSeconds then
          match e.data with
          | none => .error .keyError
          | some p => .ok (some p)
        else .ok none
    else getFromCacheByCoords rest now lat lon reqType

/-- The `new_entry` dict built by `_update_cache` (lines 94-99): city form,
with `fetched_at = datetime.now().isoformat()` (always well-formed). -/
def mkCityEntry (cityLower reqType : String) (now : ℤ) (d : Payload) : CacheEntry :=
  { city := some cityLower, lat := none, lon := none, type := some reqType,
    fetched_at := some (some now), data := some d }

/-- The `new_entry` dict built by `_update_cache_by_coords` (lines 120-125):
coordinate form. -/
def mkCoordEntry (lat lon : ℚ) (reqType : String) (now : ℤ) (d : Payload) : CacheEntry :=
  { city := none, lat := some lat, lon := some lon, type := some reqType,
    fetched_at := some (some now), data := some d }

/-- The loop of `_update_cache` (lines 100-107): overwrite the first entry
matching (`city_lower`, `req_type`) in place and stop, else append. -/
def replaceFirstCity (l : List CacheEntry) (cityLower reqType : String)
    (newE : CacheEntry) : List CacheEntry :=
  match l with
  | [] => [newE]
  | e :: rest =>
    if isMatchCity cityLower reqType e then newE :: rest
    else e :: replaceFirstCity rest cityLower reqType newE

/-- The loop of `_update_cache_by_coords` (lines 126-133). -/
def replaceFirstCoord (l : List CacheEntry) (lat lon : ℚ) (reqType : String)
    (newE : CacheEntry) : List CacheEntry :=
  match l with
  | [] => [newE]
  | e :: rest =>
    if isMatchCoord lat lon reqType e then newE :: rest
    else e :: replaceFirstCoord rest lat lon reqType newE

/-- `_update_cache(city, req_type, data)` acting on an already-loaded entry
list (lines 92-107, before `_write_cache`). -/
def updateCache (l : List CacheEntry) (now : ℤ) (city reqType : String)
    (d : Payload) : List CacheEntry :=
  replaceFirstCity l (pyLower city) reqType (mkCityEntry (pyLower city) reqType now d)

/-- `_update_cache_by_coords(lat, lon, req_type, data)` acting on an
already-loaded entry list (lines 119-133, before `_write_cache`). -/
def updateCacheByCoords (l : List CacheEntry) (now : ℤ) (lat lon : ℚ)
    (reqType : String) (d : Payload) : List CacheEntry :=
  replaceFirstCoord l lat lon reqType (mkCoordEntry lat lon reqType now d)

/-- Number of entries of `l` matching the city key (`cityLower`, `reqType`). -/
def countCity (l : List CacheEntry) (cityLower reqType : String) : ℕ :=
  (l.filter (isMatchCity cityLower reqType)).length

/-- Number of entries of `l` matching the coordinate key (`lat`, `lon`, `reqType`). -/
def countCoord (l : List CacheEntry) (lat lon : ℚ) (reqType : String) : ℕ :=
  (l.filter (isMatchCoord lat lon reqType)).length

/-- The state of the backing file `weather_cache.json` as `_read_cache`
distinguishes it: absent, zero-length, present but not parseable as JSON,
parseable but not a JSON list, or a JSON list of entries. -/
inductive StoreFile where
  | absent
  | empty
  | corrupt
  | nonList
  | entries (l : List CacheEntry)
  deriving DecidableEq, Repr

/-- `_read_cache()` (lines 18-32): returns the parsed list, and `[]` when the
file is absent, zero-length, unparseable, or not a list; it never raises. -/
def readCache : StoreFile → List CacheEntry
  | .absent => []
  | .empty => []
  | .corrupt => []
  | .nonList => []
  | .entries l => l

/-- The error value the spec's Record Store `replace` is said to fail with. -/
inductive PersistenceError where
  | ioError
  deriving DecidableEq, Repr

/-- What a call to `_write_cache` produces: the resulting file state, whether
an error message was printed to the console, and the Python return value of
the call (`None` on every path, modelled as `Option PersistenceError` to make
"no error value is returned" expressible). -/
structure WriteResult where
  fs : StoreFile
  logged : Bool
  ret : Option PersistenceError
  deriving DecidableEq, Repr

/-- How the OS-level part of a `_write_cache` call can go.  `ok`: `open` and
`json.dump` both succeed.  `openFail`: `open(CACHE_FILE, 'w')` itself raises
`IOError` (e.g. permission denied), before anything is truncated.
`dumpFail flushed`: `open` succeeds — truncating the file on the spot — and
`json.dump` then raises `IOError` mid-write (e.g. disk full); the file is left
holding whatever prefix was flushed: nothing (`flushed = false`, a zero-length
file) or an unparseable partial serialization (`flushed = true`). -/
inductive WriteMode where
  | ok
  | openFail
  | dumpFail (flushed : Bool)
  deriving DecidableEq, Repr

/-- `_write_cache(data)` (lines 34-44): on success the file now holds `data`;
on either `IOError` path the exception is caught and a message is printed.
The function returns `None` on every path.  Because `'w'` truncates at `open`
time, a failure during `json.dump` leaves a truncated file, while a failure of
`open` itself leaves the previous file intact. -/
def writeCache (mode : WriteMode) (fs : StoreFile) (d : List CacheEntry) :
    WriteResult :=
  match mode with
  | .ok => { fs := .entries d, logged := false, ret := none }
  | .openFail => { fs := fs, logged := true, ret := none }
  | .dumpFail flushed =>
    { fs := if flushed then .corrupt else .empty, logged := true, ret := none }

/-- `_update_cache` including its file effects (lines 84-108): read, modify in
memory, write back; returns `None` (like `_write_cache`). -/
def updateCacheFile (mode : WriteMode) (fs : StoreFile) (now : ℤ)
    (city reqType : String) (d : Payload) : WriteResult :=
  writeCache mode fs (updateCache (readCache fs) now city reqType d)

/-- `_get_from_cache` including the file read (lines 46-63). -/
def getFromCacheFile (fs : StoreFile) (now : ℤ) (city reqType : String) :
    Except PyErr (Option Payload) :=
  getFromCache (readCache fs) now city reqType

/-- `_get_from_cache_by_coords` including the file read (lines 65-82). -/
def getFromCacheByCoordsFile (fs : StoreFile) (now : ℤ) (lat lon : ℚ)
    (reqType : String) : Except PyErr (Option Payload) :=
  getFromCacheByCoords (readCache fs) now lat lon reqType

/-- Python truthiness of `dict | None`: `None` and `{}` are falsy. -/
def optPayloadTruthy : Option Payload → Bool
  | some p => !p.isEmpty
  | none => false

/-- `get_weather_by_city(city)` (lines 204-218) with the upstream HTTP call
abstracted into the `fetched` argument (`make_request` returning a JSON dict
or `None`): consult the cache; on a truthy hit return it; otherwise, if the
fetch produced a truthy payload, upsert it under `data.get('name', city)` and
return the fetched payload (successful or not, cached or not). -/
def getWeatherByCity (mode : WriteMode) (fs : StoreFile) (now : ℤ)
    (city : String) (fetched : Option Payload) :
    Except PyErr (Option Payload × StoreFile) :=
  match getFromCacheFile fs now city "weather" with
  | .error e => .error e
  | .ok cached =>
    if optPayloadTruthy cached then .ok (cached, fs)
    else
      match fetched with
      | some d =>
        if !d.isEmpty then
          let apiCityName := (d.lookup "name").getD city
          let w := updateCacheFile mode fs now apiCityName "weather" d
          .ok (some d, w.fs)
        else .ok (some d, fs)
      | none => .ok (none, fs)

example : getFromCache [mkCityEntry "moscow" "weather" 0 [("temp", "5")]] 10
    "Moscow" "weather" = .ok (some [("temp", "5")]) := by decide

example : getFromCache [mkCityEntry "moscow" "weather" 0 [("temp", "5")]] 3600
    "moscow" "weather" = .ok none := by decide

example : getFromCacheByCoords
    [mkCoordEntry (55 : ℚ) (37 : ℚ) "air_quality" 0 [("aqi", "2")]]
    10 (55 : ℚ) (36 : ℚ) "air_quality" = .ok none := by decide

example : updateCache [] 5 "Paris" "weather" [("temp", "12")] =
    [mkCityEntry "paris" "weather" 5 [("temp", "12")]] := by decide

/-! ### Helper lemmas about the match predicates -/

theorem isMatchCity_iff (cl r : String) (e : CacheEntry) :
    isMatchCity cl r e = true ↔ e.city = some cl ∧ e.type = some r := by
  simp [isMatchCity]

theorem isMatchCoord_iff (lat lon : ℚ) (r : String) (e : CacheEntry) :
    isMatchCoord lat lon r e = true ↔
      e.lat = some lat ∧ e.lon = some lon ∧ e.type = some r := by
  simp [isMatchCoord, and_assoc]

theorem isMatchCity_mkCity (cl r : String) (t : ℤ) (d : Payload) :
    isMatchCity cl r (mkCityEntry cl r t d) = true := by
  simp [isMatchCity, mkCityEntry]

theorem isMatchCoord_mkCoord (lat lon : ℚ) (r : String) (t : ℤ) (d : Payload) :
    isMatchCoord lat lon r (mkCoordEntry lat lon r t d) = true := by
  simp [isMatchCoord, mkCoordEntry]

theorem isMatchCity_mkCoord (cl r : String) (lat lon : ℚ) (r' : String)
    (t : ℤ) (d : Payload) :
    isMatchCity cl r (mkCoordEntry lat lon r' t d) = false := by
  simp [isMatchCity, mkCoordEntry]

theorem isMatchCoord_mkCity (lat lon : ℚ) (r : String) (cl r' : String)
    (t : ℤ) (d : Payload) :
    isMatchCoord lat lon r (mkCityEntry cl r' t d) = false := by
  simp [isMatchCoord, mkCityEntry]

theorem isMatchCity_mkCity_other (cl r cl' r' : String) (t : ℤ) (d : Payload)
    (h : cl' ≠ cl ∨ r' ≠ r) :
    isMatchCity cl' r' (mkCityEntry cl r t d) = false := by
  rcases h with h | h <;> simp [isMatchCity, mkCityEntry] <;> tauto

theorem isMatchCoord_mkCoord_other (lat lon : ℚ) (r : String) (lat' lon' : ℚ)
    (r' : String) (t : ℤ) (d : Payload) (h : (lat', lon') ≠ (lat, lon) ∨ r' ≠ r) :
    isMatchCoord lat' lon' r' (mkCoordEntry lat lon r t d) = false := by
  rw [Bool.eq_false_iff]
  intro hc
  rw [isMatchCoord_iff] at hc
  obtain ⟨h1, h2, h3⟩ := hc
  simp only [mkCoordEntry, Option.some_inj] at h1 h2 h3
  rcases h with h | h
  · exact h (by rw [← h1, ← h2])
  · exact h h3.symm

theorem isMatchCity_unique (cl r cl' r' : String) (e : CacheEntry)
    (h1 : isMatchCity cl r e = true) (h2 : isMatchCity cl' r' e = true) :
    cl' = cl ∧ r' = r := by
  rw [isMatchCity_iff] at h1 h2
  obtain ⟨hc1, ht1⟩ := h1
  obtain ⟨hc2, ht2⟩ := h2
  rw [hc1] at hc2
  rw [ht1] at ht2
  exact ⟨(Option.some_inj.mp hc2).symm, (Option.some_inj.mp ht2).symm⟩

theorem isMatchCoord_unique (lat lon : ℚ) (r : String) (lat' lon' : ℚ)
    (r' : String) (e : CacheEntry)
    (h1 : isMatchCoord lat lon r e = true) (h2 : isMatchCoord lat' lon' r' e = true) :
    lat' = lat ∧ lon' = lon ∧ r' = r := by
  rw [isMatchCoord_iff] at h1 h2
  obtain ⟨ha1, hb1, ht1⟩ := h1
  obtain ⟨ha2, hb2, ht2⟩ := h2
  rw [ha1] at ha2
  rw [hb1] at hb2
  rw [ht1] at ht2
  exact ⟨(Option.some_inj.mp ha2).symm, (Option.some_inj.mp hb2).symm,
    (Option.some_inj.mp ht2).symm⟩

/-! ### Scan lemmas for `_get_from_cache` -/

theorem getFromCacheList_cons_nomatch (e : CacheEntry) (rest : List CacheEntry)
    (now : ℤ) (cl r : String) (h : isMatchCity cl r e = false) :
    getFromCacheList (e :: rest) now cl r = getFromCacheList rest now cl r := by
  simp [getFromCacheList, h]

theorem getFromCacheList_cons_match_full (e : CacheEntry) (rest : List CacheEntry)
    (now t : ℤ) (cl r : String) (d : Payload) (h : isMatchCity cl r e = true)
    (ht : e.fetched_at = some (some t)) (hd : e.data = some d) :
    getFromCacheList (e :: rest) now cl r =
      .ok (if now - t < ttlCitySeconds then some d else none) := by
  simp only [getFromCacheList, h, if_true, ht, hd]
  split <;> rfl

theorem getFromCacheList_append (pre rest : List CacheEntry) (now : ℤ)
    (cl r : String) (h : ∀ e ∈ pre, isMatchCity cl r e = false) :
    getFromCacheList (pre ++ rest) now cl r = getFromCacheList rest now cl r := by
  induction pre with
  | nil => rfl
  | cons e pre ih =>
    rw [List.cons_append,
      getFromCacheList_cons_nomatch _ _ _ _ _ (h e (by simp)),
      ih (fun e' he' => h e' (by simp [he']))]

theorem getFromCacheList_nomatch (l : List CacheEntry) (now : ℤ) (cl r : String)
    (h : ∀ e ∈ l, isMatchCity cl r e = false) :
    getFromCacheList l now cl r = .ok none := by
  have h2 := getFromCacheList_append l [] now cl r h
  rw [List.append_nil] at h2
  rw [h2]
  rfl

theorem getFromCacheList_ok_some (l : List CacheEntry) (now : ℤ) (cl r : String)
    (p : Payload) (h : getFromCacheList l now cl r = .ok (some p)) :
    ∃ e ∈ l, isMatchCity cl r e = true ∧ e.data = some p ∧
      ∃ t, e.fetched_at = some (some t) ∧ now - t < ttlCitySeconds := by
  induction l with
  | nil => simp [getFromCacheList] at h
  | cons e rest ih =>
    by_cases hm : isMatchCity cl r e = true
    · rw [getFromCacheList, if_pos hm] at h
      rcases hf : e.fetched_at with _ | ⟨_ | t⟩
      · simp [hf] at h
      · simp [hf] at h
      · simp only [hf] at h
        by_cases hfresh : now - t < ttlCitySeconds
        · rw [if_pos hfresh] at h
          rcases hd : e.data with _ | d
          · simp [hd] at h
          · simp only [hd, Except.ok.injEq, Option.some_inj] at h
            exact ⟨e, by simp, hm, by rw [hd, h], t, hf, hfresh⟩
        · rw [if_neg hfresh] at h
          simp at h
    · have hm' : isMatchCity cl r e = false := by
        simpa using hm
      rw [getFromCacheList_cons_nomatch _ _ _ _ _ hm'] at h
      obtain ⟨e', he', hrest⟩ := ih h
      exact ⟨e', by simp [he'], hrest⟩

theorem getFromCacheList_no_raise (l : List CacheEntry) (now : ℤ) (cl r : String)
    (h : ∀ e ∈ l, isMatchCity cl r e = true →
      (∃ t, e.fetched_at = some (some t)) ∧ ∃ p, e.data = some p) :
    ∃ v, getFromCacheList l now cl r = .ok v := by
  induction l with
  | nil => exact ⟨none, rfl⟩
  | cons e rest ih =>
    by_cases hm : isMatchCity cl r e = true
    · obtain ⟨⟨t, ht⟩, ⟨p, hp⟩⟩ := h e (by simp) hm
      rw [getFromCacheList_cons_match_full e rest now t cl r p hm ht hp]
      exact ⟨_, rfl⟩
    · have hm' : isMatchCity cl r e = false := by
        simpa using hm
      rw [getFromCacheList_cons_nomatch _ _ _ _ _ hm']
      exact ih (fun e' he' => h e' (by simp [he']))

/-! ### Scan lemmas for `_get_from_cache_by_coords` -/

theorem getFromCacheByCoords_cons_nomatch (e : CacheEntry) (rest : List CacheEntry)
    (now : ℤ) (lat lon : ℚ) (r : String) (h : isMatchCoord lat lon r e = false) :
    getFromCacheByCoords (e :: rest) now lat lon r =
      getFromCacheByCoords rest now lat lon r := by
  simp [getFromCacheByCoords, h]

theorem getFromCacheByCoords_cons_match_full (e : CacheEntry)
    (rest : List CacheEntry) (now t : ℤ) (lat lon : ℚ) (r : String) (d : Payload)
    (h : isMatchCoord lat lon r e = true)
    (ht : e.fetched_at = some (some t)) (hd : e.data = some d) :
    getFromCacheByCoords (e :: rest) now lat lon r =
      .ok (if now - t < ttlCoordsSeconds then some d else none) := by
  simp only [getFromCacheByCoords, h, if_true, ht, hd]
  split <;> rfl

theorem getFromCacheByCoords_append (pre rest : List CacheEntry) (now : ℤ)
    (lat lon : ℚ) (r : String) (h : ∀ e ∈ pre, isMatchCoord lat lon r e = false) :
    getFromCacheByCoords (pre ++ rest) now lat lon r =
      getFromCacheByCoords rest now lat lon r := by
  induction pre with
  | nil => rfl
  | cons e pre ih =>
    rw [List.cons_append,
      getFromCacheByCoords_cons_nomatch _ _ _ _ _ _ (h e (by simp)),
      ih (fun e' he' => h e' (by simp [he']))]

theorem getFromCacheByCoords_nomatch (l : List CacheEntry) (now : ℤ)
    (lat lon : ℚ) (r : String) (h : ∀ e ∈ l, isMatchCoord lat lon r e = false) :
    getFromCacheByCoords l now lat lon r = .ok none := by
  have h2 := getFromCacheByCoords_append l [] now lat lon r h
  rw [List.append_nil] at h2
  rw [h2]
  rfl

theorem getFromCacheByCoords_ok_some (l : List CacheEntry) (now : ℤ)
    (lat lon : ℚ) (r : String) (p : Payload)
    (h : getFromCacheByCoords l now lat lon r = .ok (some p)) :
    ∃ e ∈ l, isMatchCoord lat lon r e = true ∧ e.data = some p ∧
      ∃ t, e.fetched_at = some (some t) ∧ now - t < ttlCoordsSeconds := by
  induction l with
  | nil => simp [getFromCacheByCoords] at h
  | cons e rest ih =>
    by_cases hm : isMatchCoord lat lon r e = true
    · rw [getFromCacheByCoords, if_pos hm] at h
      rcases hf : e.fetched_at with _ | ⟨_ | t⟩
      · simp [hf] at h
      · simp [hf] at h
      · simp only [hf] at h
        by_cases hfresh : now - t < ttlCoordsSeconds
        · rw [if_pos hfresh] at h
          rcases hd : e.data with _ | d
          · simp [hd] at h
          · simp only [hd, Except.ok.injEq, Option.some_inj] at h
            exact ⟨e, by simp, hm, by rw [hd, h], t, hf, hfresh⟩
        · rw [if_neg hfresh] at h
          simp at h
    · have hm' : isMatchCoord lat lon r e = false := by
        simpa using hm
      rw [getFromCacheByCoords_cons_nomatch _ _ _ _ _ _ hm'] at h
      obtain ⟨e', he', hrest⟩ := ih h
      exact ⟨e', by simp [he'], hrest⟩

theorem getFromCacheByCoords_no_raise (l : List CacheEntry) (now : ℤ)
    (lat lon : ℚ) (r : String)
    (h : ∀ e ∈ l, isMatchCoord lat lon r e = true →
      (∃ t, e.fetched_at = some (some t)) ∧ ∃ p, e.data = some p) :
    ∃ v, getFromCacheByCoords l now lat lon r = .ok v := by
  induction l with
  | nil => exact ⟨none, rfl⟩
  | cons e rest ih =>
    by_cases hm : isMatchCoord lat lon r e = true
    · obtain ⟨⟨t, ht⟩, ⟨p, hp⟩⟩ := h e (by simp) hm
      rw [getFromCacheByCoords_cons_match_full e rest now t lat lon r p hm ht hp]
      exact ⟨_, rfl⟩
    · have hm' : isMatchCoord lat lon r e = false := by
        simpa using hm
      rw [getFromCacheByCoords_cons_nomatch _ _ _ _ _ _ hm']
      exact ih (fun e' he' => h e' (by simp [he']))

/-! ### Structure lemmas for the upsert loops -/

theorem replaceFirstCity_nomatch (l : List CacheEntry) (cl r : String)
    (newE : CacheEntry) (h : ∀ e ∈ l, isMatchCity cl r e = false) :
    replaceFirstCity l cl r newE = l ++ [newE] := by
  induction l with
  | nil => rfl
  | cons e rest ih =>
    rw [replaceFirstCity, if_neg (by simp [h e (by simp)]),
      ih (fun e' he' => h e' (by simp [he'])), List.cons_append]

theorem replaceFirstCity_decomp (pre post : List CacheEntry) (e0 : CacheEntry)
    (cl r : String) (newE : CacheEntry)
    (hpre : ∀ e ∈ pre, isMatchCity cl r e = false)
    (h0 : isMatchCity cl r e0 = true) :
    replaceFirstCity (pre ++ e0 :: post) cl r newE = pre ++ newE :: post := by
  induction pre with
  | nil =>
    rw [List.nil_append, replaceFirstCity, if_pos h0, List.nil_append]
  | cons e pre ih =>
    rw [List.cons_append, replaceFirstCity, if_neg (by simp [hpre e (by simp)]),
      ih (fun e' he' => hpre e' (by simp [he'])), List.cons_append]

theorem replaceFirstCoord_nomatch (l : List CacheEntry) (lat lon : ℚ) (r : String)
    (newE : CacheEntry) (h : ∀ e ∈ l, isMatchCoord lat lon r e = false) :
    replaceFirstCoord l lat lon r newE = l ++ [newE] := by
  induction l with
  | nil => rfl
  | cons e rest ih =>
    rw [replaceFirstCoord, if_neg (by simp [h e (by simp)]),
      ih (fun e' he' => h e' (by simp [he'])), List.cons_append]

theorem replaceFirstCoord_decomp (pre post : List CacheEntry) (e0 : CacheEntry)
    (lat lon : ℚ) (r : String) (newE : CacheEntry)
    (hpre : ∀ e ∈ pre, isMatchCoord lat lon r e = false)
    (h0 : isMatchCoord lat lon r e0 = true) :
    replaceFirstCoord (pre ++ e0 :: post) lat lon r newE = pre ++ newE :: post := by
  induction pre with
  | nil =>
    rw [List.nil_append, replaceFirstCoord, if_pos h0, List.nil_append]
  | cons e pre ih =>
    rw [List.cons_append, replaceFirstCoord, if_neg (by simp [hpre e (by simp)]),
      ih (fun e' he' => hpre e' (by simp [he'])), List.cons_append]

theorem filter_replaceFirstCity (l : List CacheEntry) (cl r : String)
    (newE : CacheEntry) (hc : countCity l cl r ≤ 1)
    (hnew : isMatchCity cl r newE = true) :
    (replaceFirstCity l cl r newE).filter (isMatchCity cl r) = [newE] := by
  induction l with
  | nil => simp [replaceFirstCity, hnew]
  | cons e rest ih =>
    by_cases hm : isMatchCity cl r e = true
    · rw [replaceFirstCity, if_pos hm]
      have hrest : rest.filter (isMatchCity cl r) = [] := by
        rw [countCity, List.filter_cons_of_pos hm] at hc
        rw [List.length_cons] at hc
        exact List.length_eq_zero.mp (by omega)
      rw [List.filter_cons_of_pos hnew, hrest]
    · have hm' : isMatchCity cl r e = false := by
        simpa using hm
      rw [replaceFirstCity, if_neg (by simp [hm']), List.filter_cons_of_neg (by simp [hm'])]
      apply ih
      rw [countCity, List.filter_cons_of_neg (by simp [hm'])] at hc
      exact hc

theorem filter_replaceFirstCoord (l : List CacheEntry) (lat lon : ℚ) (r : String)
    (newE : CacheEntry) (hc : countCoord l lat lon r ≤ 1)
    (hnew : isMatchCoord lat lon r newE = true) :
    (replaceFirstCoord l lat lon r newE).filter (isMatchCoord lat lon r) = [newE] := by
  induction l with
  | nil => simp [replaceFirstCoord, hnew]
  | cons e rest ih =>
    by_cases hm : isMatchCoord lat lon r e = true
    · rw [replaceFirstCoord, if_pos hm]
      have hrest : rest.filter (isMatchCoord lat lon r) = [] := by
        rw [countCoord, List.filter_cons_of_pos hm] at hc
        rw [List.length_cons] at hc
        exact List.length_eq_zero.mp (by omega)
      rw [List.filter_cons_of_pos hnew, hrest]
    · have hm' : isMatchCoord lat lon r e = false := by
        simpa using hm
      rw [replaceFirstCoord, if_neg (by simp [hm']), List.filter_cons_of_neg (by simp [hm'])]
      apply ih
      rw [countCoord, List.filter_cons_of_neg (by simp [hm'])] at hc
      exact hc

theorem filter_replaceFirstCity_other (l : List CacheEntry) (cl r cl' r' : String)
    (newE : CacheEntry) (hnew : isMatchCity cl' r' newE = false)
    (hdiff : ∀ e ∈ l, isMatchCity cl r e = true → isMatchCity cl' r' e = false) :
    (replaceFirstCity l cl r newE).filter (isMatchCity cl' r') =
      l.filter (isMatchCity cl' r') := by
  induction l with
  | nil => simp [replaceFirstCity, hnew]
  | cons e rest ih =>
    by_cases hm : isMatchCity cl r e = true
    · rw [replaceFirstCity, if_pos hm, List.filter_cons_of_neg (by simp [hnew]),
        List.filter_cons_of_neg (by simp [hdiff e (by simp) hm])]
    · have hm' : isMatchCity cl r e = false := by
        simpa using hm
      rw [replaceFirstCity, if_neg (by simp [hm'])]
      rw [List.filter_cons, List.filter_cons,
        ih (fun e' he' => hdiff e' (by simp [he']))]

theorem filter_replaceFirstCoord_other (l : List CacheEntry) (lat lon : ℚ)
    (r : String) (lat' lon' : ℚ) (r' : String) (newE : CacheEntry)
    (hnew : isMatchCoord lat' lon' r' newE = false)
    (hdiff : ∀ e ∈ l, isMatchCoord lat lon r e = true →
      isMatchCoord lat' lon' r' e = false) :
    (replaceFirstCoord l lat lon r newE).filter (isMatchCoord lat' lon' r') =
      l.filter (isMatchCoord lat' lon' r') := by
  induction l with
  | nil => simp [replaceFirstCoord, hnew]
  | cons e rest ih =>
    by_cases hm : isMatchCoord lat lon r e = true
    · rw [replaceFirstCoord, if_pos hm, List.filter_cons_of_neg (by simp [hnew]),
        List.filter_cons_of_neg (by simp [hdiff e (by simp) hm])]
    · have hm' : isMatchCoord lat lon r e = false := by
        simpa using hm
      rw [replaceFirstCoord, if_neg (by simp [hm'])]
      rw [List.filter_cons, List.filter_cons,
        ih (fun e' he' => hdiff e' (by simp [he']))]

/-! ### Lookup after upsert -/

theorem getFromCacheList_replaceFirstCity_self (l : List CacheEntry)
    (cl r : String) (now t : ℤ) (d : Payload) :
    getFromCacheList (replaceFirstCity l cl r (mkCityEntry cl r t d)) now cl r =
      .ok (if now - t < ttlCitySeconds then some d else none) := by
  induction l with
  | nil =>
    rw [replaceFirstCity]
    exact getFromCacheList_cons_match_full _ _ now t cl r d
      (isMatchCity_mkCity cl r t d) rfl rfl
  | cons e rest ih =>
    by_cases hm : isMatchCity cl r e = true
    · rw [replaceFirstCity, if_pos hm]
      exact getFromCacheList_cons_match_full _ _ now t cl r d
        (isMatchCity_mkCity cl r t d) rfl rfl
    · have hm' : isMatchCity cl r e = false := by
        simpa using hm
      rw [replaceFirstCity, if_neg (by simp [hm']),
        getFromCacheList_cons_nomatch _ _ _ _ _ hm', ih]

theorem getFromCacheByCoords_replaceFirstCoord_self (l : List CacheEntry)
    (lat lon : ℚ) (r : String) (now t : ℤ) (d : Payload) :
    getFromCacheByCoords
        (replaceFirstCoord l lat lon r (mkCoordEntry lat lon r t d)) now lat lon r =
      .ok (if now - t < ttlCoordsSeconds then some d else none) := by
  induction l with
  | nil =>
    rw [replaceFirstCoord]
    exact getFromCacheByCoords_cons_match_full _ _ now t lat lon r d
      (isMatchCoord_mkCoord lat lon r t d) rfl rfl
  | cons e rest ih =>
    by_cases hm : isMatchCoord lat lon r e = true
    · rw [replaceFirstCoord, if_pos hm]
      exact getFromCacheByCoords_cons_match_full _ _ now t lat lon r d
        (isMatchCoord_mkCoord lat lon r t d) rfl rfl
    · have hm' : isMatchCoord lat lon r e = false := by
        simpa using hm
      rw [replaceFirstCoord, if_neg (by simp [hm']),
        getFromCacheByCoords_cons_nomatch _ _ _ _ _ _ hm', ih]

theorem getFromCacheList_replaceFirstCity_frame (l : List CacheEntry)
    (cl r cl' r' : String) (newE : CacheEntry) (now : ℤ)
    (hnew : isMatchCity cl' r' newE = false)
    (hdiff : ∀ e ∈ l, isMatchCity cl r e = true → isMatchCity cl' r' e = false) :
    getFromCacheList (replaceFirstCity l cl r newE) now cl' r' =
      getFromCacheList l now cl' r' := by
  induction l with
  | nil =>
    rw [replaceFirstCity, getFromCacheList_cons_nomatch _ _ _ _ _ hnew]
  | cons e rest ih =>
    by_cases hm : isMatchCity cl r e = true
    · rw [replaceFirstCity, if_pos hm, getFromCacheList_cons_nomatch _ _ _ _ _ hnew,
        getFromCacheList_cons_nomatch _ _ _ _ _ (hdiff e (by simp) hm)]
    · have hm' : isMatchCity cl r e = false := by
        simpa using hm
      rw [replaceFirstCity, if_neg (by simp [hm'])]
      by_cases hp : isMatchCity cl' r' e = true
      · rw [getFromCacheList, if_pos hp, getFromCacheList, if_pos hp]
      · have hp' : isMatchCity cl' r' e = false := by
          simpa using hp
        rw [getFromCacheList_cons_nomatch _ _ _ _ _ hp',
          getFromCacheList_cons_nomatch _ _ _ _ _ hp',
          ih (fun e' he' => hdiff e' (by simp [he']))]

theorem getFromCacheByCoords_replaceFirstCoord_frame (l : List CacheEntry)
    (lat lon : ℚ) (r : String) (lat' lon' : ℚ) (r' : String)
    (newE : CacheEntry) (now : ℤ)
    (hnew : isMatchCoord lat' lon' r' newE = false)
    (hdiff : ∀ e ∈ l, isMatchCoord lat lon r e = true →
      isMatchCoord lat' lon' r' e = false) :
    getFromCacheByCoords (replaceFirstCoord l lat lon r newE) now lat' lon' r' =
      getFromCacheByCoords l now lat' lon' r' := by
  induction l with
  | nil =>
    rw [replaceFirstCoord, getFromCacheByCoords_cons_nomatch _ _ _ _ _ _ hnew]
  | cons e rest ih =>
    by_cases hm : isMatchCoord lat lon r e = true
    · rw [replaceFirstCoord, if_pos hm,
        getFromCacheByCoords_cons_nomatch _ _ _ _ _ _ hnew,
        getFromCacheByCoords_cons_nomatch _ _ _ _ _ _ (hdiff e (by simp) hm)]
    · have hm' : isMatchCoord lat lon r e = false := by
        simpa using hm
      rw [replaceFirstCoord, if_neg (by simp [hm'])]
      by_cases hp : isMatchCoord lat' lon' r' e = true
      · rw [getFromCacheByCoords, if_pos hp, getFromCacheByCoords, if_pos hp]
      · have hp' : isMatchCoord lat' lon' r' e = false := by
          simpa using hp
        rw [getFromCacheByCoords_cons_nomatch _ _ _ _ _ _ hp',
          getFromCacheByCoords_cons_nomatch _ _ _ _ _ _ hp',
          ih (fun e' he' => hdiff e' (by simp [he']))]

theorem getFromCacheByCoords_replaceFirstCity_frame (l : List CacheEntry)
    (cl r : String) (lat' lon' : ℚ) (r' : String) (newE : CacheEntry) (now : ℤ)
    (hnew : isMatchCoord lat' lon' r' newE = false)
    (hdiff : ∀ e ∈ l, isMatchCity cl r e = true →
      isMatchCoord lat' lon' r' e = false) :
    getFromCacheByCoords (replaceFirstCity l cl r newE) now lat' lon' r' =
      getFromCacheByCoords l now lat' lon' r' := by
  induction l with
  | nil =>
    rw [replaceFirstCity, getFromCacheByCoords_cons_nomatch _ _ _ _ _ _ hnew]
  | cons e rest ih =>
    by_cases hm : isMatchCity cl r e = true
    · rw [replaceFirstCity, if_pos hm,
        getFromCacheByCoords_cons_nomatch _ _ _ _ _ _ hnew,
        getFromCacheByCoords_cons_nomatch _ _ _ _ _ _ (hdiff e (by simp) hm)]
    · have hm' : isMatchCity cl r e = false := by
        simpa using hm
      rw [replaceFirstCity, if_neg (by simp [hm'])]
      by_cases hp : isMatchCoord lat' lon' r' e = true
      · rw [getFromCacheByCoords, if_pos hp, getFromCacheByCoords, if_pos hp]
      · have hp' : isMatchCoord lat' lon' r' e = false := by
          simpa using hp
        rw [getFromCacheByCoords_cons_nomatch _ _ _ _ _ _ hp',
          getFromCacheByCoords_cons_nomatch _ _ _ _ _ _ hp',
          ih (fun e' he' => hdiff e' (by simp [he']))]

theorem getFromCacheList_replaceFirstCoord_frame (l : List CacheEntry)
    (lat lon : ℚ) (r : String) (cl' r' : String) (newE : CacheEntry) (now : ℤ)
    (hnew : isMatchCity cl' r' newE = false)
    (hdiff : ∀ e ∈ l, isMatchCoord lat lon r e = true →
      isMatchCity cl' r' e = false) :
    getFromCacheList (replaceFirstCoord l lat lon r newE) now cl' r' =
      getFromCacheList l now cl' r' := by
  induction l with
  | nil =>
    rw [replaceFirstCoord, getFromCacheList_cons_nomatch _ _ _ _ _ hnew]
  | cons e rest ih =>
    by_cases hm : isMatchCoord lat lon r e = true
    · rw [replaceFirstCoord, if_pos hm, getFromCacheList_cons_nomatch _ _ _ _ _ hnew,
        getFromCacheList_cons_nomatch _ _ _ _ _ (hdiff e (by simp) hm)]
    · have hm' : isMatchCoord lat lon r e = false := by
        simpa using hm
      rw [replaceFirstCoord, if_neg (by simp [hm'])]
      by_cases hp : isMatchCity cl' r' e = true
      · rw [getFromCacheList, if_pos hp, getFromCacheList, if_pos hp]
      · have hp' : isMatchCity cl' r' e = false := by
          simpa using hp
        rw [getFromCacheList_cons_nomatch _ _ _ _ _ hp',
          getFromCacheList_cons_nomatch _ _ _ _ _ hp',
          ih (fun e' he' => hdiff e' (by simp [he']))]

/-! ### Claim theorems -/

/-- C1: for every store whose first entry matching the given (kind, key) has
timestamp `t` and payload `d`, lookup returns the payload exactly when
`now - t < ttl` strictly, and `Miss` (`None`) otherwise; in particular, with
`fetched_at = now - ttl + ε` (`ε > 0`) the payload is returned, and with
`fetched_at = now - ttl - ε` `Miss` is returned — for both the city-keyed and
the coordinate-keyed lookup. -/
theorem cache_freshness_boundary (now t ε : ℤ) (city reqType : String)
    (lat lon : ℚ) (d : Payload) (hε : 0 < ε) :
    (∀ pre post e, (∀ e' ∈ pre, isMatchCity (pyLower city) reqType e' = false) →
      isMatchCity (pyLower city) reqType e = true →
      e.fetched_at = some (some t) → e.data = some d →
      getFromCache (pre ++ e :: post) now city reqType =
        .ok (if now - t < ttlCitySeconds then some d else none)
      ∧ (t = now - ttlCitySeconds + ε →
          getFromCache (pre ++ e :: post) now city reqType = .ok (some d))
      ∧ (t = now - ttlCitySeconds - ε →
          getFromCache (pre ++ e :: post) now city reqType = .ok none))
    ∧ (∀ pre post e, (∀ e' ∈ pre, isMatchCoord lat lon reqType e' = false) →
      isMatchCoord lat lon reqType e = true →
      e.fetched_at = some (some t) → e.data = some d →
      getFromCacheByCoords (pre ++ e :: post) now lat lon reqType =
        .ok (if now - t < ttlCoordsSeconds then some d else none)
      ∧ (t = now - ttlCoordsSeconds + ε →
          getFromCacheByCoords (pre ++ e :: post) now lat lon reqType = .ok (some d))
      ∧ (t = now - ttlCoordsSeconds - ε →
          getFromCacheByCoords (pre ++ e :: post) now lat lon reqType = .ok none)) := by
  constructor
  · intro pre post e hpre hm ht hd
    have hbase : getFromCache (pre ++ e :: post) now city reqType =
        .ok (if now - t < ttlCitySeconds then some d else none) := by
      rw [getFromCache, getFromCacheList_append pre (e :: post) now _ _ hpre]
      exact getFromCacheList_cons_match_full e post now t _ _ d hm ht hd
    refine ⟨hbase, fun htt => ?_, fun htt => ?_⟩
    · rw [hbase, if_pos (by omega)]
    · rw [hbase, if_neg (by omega)]
  · intro pre post e hpre hm ht hd
    have hbase : getFromCacheByCoords (pre ++ e :: post) now lat lon reqType =
        .ok (if now - t < ttlCoordsSeconds then some d else none) := by
      rw [getFromCacheByCoords_append pre (e :: post) now lat lon _ hpre]
      exact getFromCacheByCoords_cons_match_full e post now t lat lon _ d hm ht hd
    refine ⟨hbase, fun htt => ?_, fun htt => ?_⟩
    · rw [hbase, if_pos (by omega)]
    · rw [hbase, if_neg (by omega)]

/-- Witness for C1 at a concrete input: one entry fetched 3599 seconds before
`now` (i.e. `now - ttl + 1`) is returned as a hit. -/
theorem cache_freshness_boundary_witness :
    getFromCache [mkCityEntry "paris" "weather" 3601 [("temp", "12")]]
      7200 "Paris" "weather" = .ok (some [("temp", "12")]) :=
  ((cache_freshness_boundary 7200 3601 1 "Paris" "weather" 55 37 [("temp", "12")]
      (by decide)).1 [] [] (mkCityEntry "paris" "weather" 3601 [("temp", "12")])
      (by simp) (by decide) rfl rfl).2.1 (by decide)

/-- C6: city keys are lower-cased before both storage and comparison, so after
`upsert(kind, cityStore, d)`, a lookup within the TTL under any spelling whose
lower-casing agrees (e.g. storing "Moscow" and looking up "moscow") returns
`d`, over every starting store. -/
theorem cache_case_insensitive_city (l : List CacheEntry) (now now2 : ℤ)
    (cityStore cityLookup reqType : String) (d : Payload)
    (hcase : pyLower cityLookup = pyLower cityStore)
    (hfresh : now2 - now < ttlCitySeconds) :
    getFromCache (updateCache l now cityStore reqType d) now2 cityLookup reqType =
      .ok (some d) := by
  rw [getFromCache, hcase, updateCache, getFromCacheList_replaceFirstCity_self,
    if_pos hfresh]

/-- Witness for C6: `upsert("weather", "Moscow", P)` then
`lookup("weather", "moscow")` one minute later returns `P`. -/
theorem cache_case_insensitive_city_witness :
    getFromCache (updateCache [] 0 "Moscow" "weather" [("temp", "-3")]) 60
      "moscow" "weather" = .ok (some [("temp", "-3")]) :=
  cache_case_insensitive_city [] 0 60 "Moscow" "moscow" "weather" [("temp", "-3")]
    (by decide) (by decide)

/-- C7: the coordinate-keyed lookup matches only on exact equality of both
latitude and longitude (and the kind tag): any returned payload comes from an
entry whose stored `lat`/`lon` are exactly the queried values, and in
particular `lookup("air_quality", (55.75, 37.61))` misses an entry stored at
`(55.7558, 37.6176)`. -/
theorem cache_coord_exact_match :
    (∀ (l : List CacheEntry) (now : ℤ) (lat lon : ℚ) (reqType : String) (p : Payload),
      getFromCacheByCoords l now lat lon reqType = .ok (some p) →
      ∃ e ∈ l, e.lat = some lat ∧ e.lon = some lon ∧ e.type = some reqType ∧
        e.data = some p)
    ∧ (∀ (now t : ℤ) (d : Payload),
      getFromCacheByCoords
          [mkCoordEntry (55.7558 : ℚ) (37.6176 : ℚ) "air_quality" t d]
          now (55.75 : ℚ) (37.61 : ℚ) "air_quality" = .ok none) := by
  constructor
  · intro l now lat lon reqType p h
    obtain ⟨e, he, hm, hd, _⟩ := getFromCacheByCoords_ok_some l now lat lon reqType p h
    rw [isMatchCoord_iff] at hm
    exact ⟨e, he, hm.1, hm.2.1, hm.2.2, hd⟩
  · intro now t d
    apply getFromCacheByCoords_nomatch
    intro e he
    simp only [List.mem_singleton] at he
    subst he
    apply isMatchCoord_mkCoord_other
    left
    intro hco
    rw [Prod.mk.injEq] at hco
    have hne : (55.75 : ℚ) ≠ 55.7558 := by norm_num
    exact hne hco.1

/-- Witness for C7: a coordinate lookup that does return a payload returns it
from an entry carrying exactly the queried coordinates. -/
theorem cache_coord_exact_match_witness :
    ∃ e ∈ [mkCoordEntry 55 37 "air_quality" 0 [("aqi", "2")]],
      e.lat = some (55 : ℚ) ∧ e.lon = some (37 : ℚ) ∧ e.type = some "air_quality" ∧
        e.data = some [("aqi", "2")] :=
  cache_coord_exact_match.1 [mkCoordEntry 55 37 "air_quality" 0 [("aqi", "2")]]
    10 55 37 "air_quality" [("aqi", "2")] (by decide)

/-- C9 (corrected): both source cache variants check freshness against a fixed
TTL, but both observed TTL values are 1 hour — the single module constant
`CACHE_TTL_HOURS = 1` — not 1 hour and 3 hours. -/
theorem cache_ttl_one_hour_both :
    ttlCityHours = 1 ∧ ttlCoordsHours = 1 ∧ ttlCitySeconds = 3600 ∧
      ttlCoordsSeconds = 3600
    ∧ (∀ (now t : ℤ) (city reqType : String) (d : Payload),
        getFromCache [mkCityEntry (pyLower city) reqType t d] now city reqType =
          .ok (if now - t < ttlCitySeconds then some d else none))
    ∧ (∀ (now t : ℤ) (lat lon : ℚ) (reqType : String) (d : Payload),
        getFromCacheByCoords [mkCoordEntry lat lon reqType t d] now lat lon reqType =
          .ok (if now - t < ttlCoordsSeconds then some d else none)) := by
  refine ⟨rfl, rfl, by decide, by decide, ?_, ?_⟩
  · intro now t city reqType d
    rw [getFromCache]
    exact getFromCacheList_cons_match_full _ _ now t _ _ d
      (isMatchCity_mkCity _ _ t d) rfl rfl
  · intro now t lat lon reqType d
    exact getFromCacheByCoords_cons_match_full _ _ now t lat lon _ d
      (isMatchCoord_mkCoord lat lon _ t d) rfl rfl

/-- Counterexample to C9 as stated: the observed TTLs of the two variants are
not 1 hour and 3 hours (in either order) — both are `CACHE_TTL_HOURS = 1`. -/
theorem cache_ttl_three_hours_counterexample :
    ¬ (ttlCityHours = 1 ∧ ttlCoordsHours = 3) ∧
      ¬ (ttlCityHours = 3 ∧ ttlCoordsHours = 1) := by decide

/-- C10: city-keyed and coordinate-keyed entries coexist without
cross-matching: a payload returned by the city lookup comes from an entry
with a `city` field set, a payload returned by the coordinate lookup comes
from an entry with `lat`/`lon` fields set, coordinate-upserted entries carry
no `city` field and city-upserted entries carry no `lat`/`lon` fields, and a
store holding only field-free entries of the other form always misses. -/
theorem cache_no_cross_matching :
    (∀ (l : List CacheEntry) (now : ℤ) (city reqType : String) (p : Payload),
      getFromCache l now city reqType = .ok (some p) →
      ∃ e ∈ l, e.city = some (pyLower city) ∧ e.type = some reqType ∧
        e.data = some p)
    ∧ (∀ (l : List CacheEntry) (now : ℤ) (lat lon : ℚ) (reqType : String) (p : Payload),
      getFromCacheByCoords l now lat lon reqType = .ok (some p) →
      ∃ e ∈ l, e.lat = some lat ∧ e.lon = some lon ∧ e.data = some p)
    ∧ (∀ (lat lon : ℚ) (reqType : String) (t : ℤ) (d : Payload),
      (mkCoordEntry lat lon reqType t d).city = none)
    ∧ (∀ (cl reqType : String) (t : ℤ) (d : Payload),
      (mkCityEntry cl reqType t d).lat = none ∧ (mkCityEntry cl reqType t d).lon = none)
    ∧ (∀ (l : List CacheEntry) (now : ℤ) (city reqType : String),
      (∀ e ∈ l, e.city = none) → getFromCache l now city reqType = .ok none)
    ∧ (∀ (l : List CacheEntry) (now : ℤ) (lat lon : ℚ) (reqType : String),
      (∀ e ∈ l, e.lat = none) →
        getFromCacheByCoords l now lat lon reqType = .ok none) := by
  refine ⟨?_, ?_, fun _ _ _ _ _ => rfl, fun _ _ _ _ => ⟨rfl, rfl⟩, ?_, ?_⟩
  · intro l now city reqType p h
    obtain ⟨e, he, hm, hd, _⟩ := getFromCacheList_ok_some l now _ _ p h
    rw [isMatchCity_iff] at hm
    exact ⟨e, he, hm.1, hm.2, hd⟩
  · intro l now lat lon reqType p h
    obtain ⟨e, he, hm, hd, _⟩ := getFromCacheByCoords_ok_some l now lat lon _ p h
    rw [isMatchCoord_iff] at hm
    exact ⟨e, he, hm.1, hm.2.1, hd⟩
  · intro l now city reqType hall
    rw [getFromCache]
    apply getFromCacheList_nomatch
    intro e he
    rw [Bool.eq_false_iff]
    intro hm
    rw [isMatchCity_iff] at hm
    rw [hall e he] at hm
    exact Option.noConfusion hm.1
  · intro l now lat lon reqType hall
    apply getFromCacheByCoords_nomatch
    intro e he
    rw [Bool.eq_false_iff]
    intro hm
    rw [isMatchCoord_iff] at hm
    rw [hall e he] at hm
    exact Option.noConfusion hm.1

/-- Witness for C10: a city lookup over a store holding only a
coordinate-upserted entry misses. -/
theorem cache_no_cross_matching_witness :
    getFromCache [mkCoordEntry 55 37 "air_quality" 0 [("aqi", "2")]] 10 "moscow"
      "weather" = .ok none :=
  cache_no_cross_matching.2.2.2.2.1
    [mkCoordEntry 55 37 "air_quality" 0 [("aqi", "2")]] 10 "moscow" "weather"
    (by decide)

/-- C2: on any store with at most one entry per (kind, key), upsert overwrites
the existing matching entry in place (preserving its position) or appends one
new entry when none matches, leaves exactly one matching entry, leaves the
entry count of every other key unchanged, and after
`upsert(k, key, dA); upsert(k, key, dB)` exactly one entry for the key
remains, holding `dB` — for both the city-keyed and coordinate-keyed upsert. -/
theorem cache_upsert_unique (l : List CacheEntry) (now1 now2 : ℤ)
    (city reqType : String) (lat lon : ℚ) (dA dB : Payload) :
    (countCity l (pyLower city) reqType ≤ 1 →
      countCity (updateCache l now1 city reqType dA) (pyLower city) reqType = 1
      ∧ (updateCache (updateCache l now1 city reqType dA) now2 city reqType dB).filter
          (isMatchCity (pyLower city) reqType) =
            [mkCityEntry (pyLower city) reqType now2 dB])
    ∧ ((∀ e ∈ l, isMatchCity (pyLower city) reqType e = false) →
      updateCache l now1 city reqType dA =
        l ++ [mkCityEntry (pyLower city) reqType now1 dA])
    ∧ (∀ pre e0 post, l = pre ++ e0 :: post →
      (∀ e ∈ pre, isMatchCity (pyLower city) reqType e = false) →
      isMatchCity (pyLower city) reqType e0 = true →
      updateCache l now1 city reqType dA =
        pre ++ mkCityEntry (pyLower city) reqType now1 dA :: post)
    ∧ (∀ cl' r', cl' ≠ pyLower city ∨ r' ≠ reqType →
      countCity (updateCache l now1 city reqType dA) cl' r' = countCity l cl' r')
    ∧ (countCoord l lat lon reqType ≤ 1 →
      countCoord (updateCacheByCoords l now1 lat lon reqType dA) lat lon reqType = 1
      ∧ (updateCacheByCoords (updateCacheByCoords l now1 lat lon reqType dA) now2
          lat lon reqType dB).filter (isMatchCoord lat lon reqType) =
            [mkCoordEntry lat lon reqType now2 dB])
    ∧ ((∀ e ∈ l, isMatchCoord lat lon reqType e = false) →
      updateCacheByCoords l now1 lat lon reqType dA =
        l ++ [mkCoordEntry lat lon reqType now1 dA])
    ∧ (∀ pre e0 post, l = pre ++ e0 :: post →
      (∀ e ∈ pre, isMatchCoord lat lon reqType e = false) →
      isMatchCoord lat lon reqType e0 = true →
      updateCacheByCoords l now1 lat lon reqType dA =
        pre ++ mkCoordEntry lat lon reqType now1 dA :: post)
    ∧ (∀ (lat' lon' : ℚ) (r' : String),
      (lat', lon') ≠ (lat, lon) ∨ r' ≠ reqType →
      countCoord (updateCacheByCoords l now1 lat lon reqType dA) lat' lon' r' =
        countCoord l lat' lon' r') := by
  refine ⟨?_, ?_, ?_, ?_, ?_, ?_, ?_, ?_⟩
  · intro hc
    have h1 : (updateCache l now1 city reqType dA).filter
        (isMatchCity (pyLower city) reqType) =
          [mkCityEntry (pyLower city) reqType now1 dA] := by
      rw [updateCache]
      exact filter_replaceFirstCity l _ _ _ hc (isMatchCity_mkCity _ _ _ _)
    refine ⟨by rw [countCity, h1]; rfl, ?_⟩
    exact filter_replaceFirstCity (updateCache l now1 city reqType dA) _ _
      (mkCityEntry (pyLower city) reqType now2 dB) (by rw [countCity, h1]; simp)
      (isMatchCity_mkCity _ _ _ _)
  · intro h
    rw [updateCache]
    exact replaceFirstCity_nomatch l _ _ _ h
  · intro pre e0 post hl hpre h0
    rw [updateCache, hl]
    exact replaceFirstCity_decomp pre post e0 _ _ _ hpre h0
  · intro cl' r' hne
    rw [updateCache, countCity, countCity]
    apply congrArg List.length
    apply filter_replaceFirstCity_other
    · exact isMatchCity_mkCity_other _ _ cl' r' now1 dA hne
    · intro e he hm
      rw [Bool.eq_false_iff]
      intro hm2
      obtain ⟨h1, h2⟩ := isMatchCity_unique _ _ cl' r' e hm hm2
      rcases hne with hne | hne
      · exact hne h1
      · exact hne h2
  · intro hc
    have h1 : (updateCacheByCoords l now1 lat lon reqType dA).filter
        (isMatchCoord lat lon reqType) =
          [mkCoordEntry lat lon reqType now1 dA] := by
      rw [updateCacheByCoords]
      exact filter_replaceFirstCoord l _ _ _ _ hc (isMatchCoord_mkCoord _ _ _ _ _)
    refine ⟨by rw [countCoord, h1]; rfl, ?_⟩
    exact filter_replaceFirstCoord (updateCacheByCoords l now1 lat lon reqType dA)
      _ _ _ (mkCoordEntry lat lon reqType now2 dB) (by rw [countCoord, h1]; simp)
      (isMatchCoord_mkCoord _ _ _ _ _)
  · intro h
    rw [updateCacheByCoords]
    exact replaceFirstCoord_nomatch l _ _ _ _ h
  · intro pre e0 post hl hpre h0
    rw [updateCacheByCoords, hl]
    exact replaceFirstCoord_decomp pre post e0 _ _ _ _ hpre h0
  · intro lat' lon' r' hne
    rw [updateCacheByCoords, countCoord, countCoord]
    apply congrArg List.length
    apply filter_replaceFirstCoord_other
    · exact isMatchCoord_mkCoord_other _ _ _ lat' lon' r' now1 dA hne
    · intro e he hm
      rw [Bool.eq_false_iff]
      intro hm2
      obtain ⟨h1, h2, h3⟩ := isMatchCoord_unique _ _ _ lat' lon' r' e hm hm2
      rcases hne with hne | hne
      · exact hne (by rw [h1, h2])
      · exact hne h3

/-- Witness for C2: upserting into an empty store leaves exactly one matching
entry. -/
theorem cache_upsert_unique_witness :
    countCity (updateCache [] 0 "Moscow" "weather" [("a", "1")]) "moscow"
      "weather" = 1 :=
  ((cache_upsert_unique [] 0 5 "Moscow" "weather" 55 37 [("a", "1")]
    [("b", "2")]).1 (by decide)).1

/-- C8: upserting one key leaves lookups of every other key unchanged: a
city-keyed upsert does not change city lookups of any other
(lower-cased key, kind), a coordinate-keyed upsert does not change coordinate
lookups of any other (coordinates, kind), and on stores whose entries carry
only one key form (as all upsert-written entries do), a city upsert does not
change any coordinate lookup and a coordinate upsert does not change any city
lookup. -/
theorem cache_key_isolation (l : List CacheEntry) (now now2 : ℤ)
    (city reqType city' reqType' : String) (lat lon lat' lon' : ℚ) (d : Payload) :
    (pyLower city' ≠ pyLower city ∨ reqType' ≠ reqType →
      getFromCache (updateCache l now city reqType d) now2 city' reqType' =
        getFromCache l now2 city' reqType')
    ∧ ((lat', lon') ≠ (lat, lon) ∨ reqType' ≠ reqType →
      getFromCacheByCoords (updateCacheByCoords l now lat lon reqType d) now2
          lat' lon' reqType' =
        getFromCacheByCoords l now2 lat' lon' reqType')
    ∧ ((∀ e ∈ l, e.city = none ∨ (e.lat = none ∧ e.lon = none)) →
      getFromCacheByCoords (updateCache l now city reqType d) now2 lat' lon'
          reqType' =
        getFromCacheByCoords l now2 lat' lon' reqType'
      ∧ getFromCache (updateCacheByCoords l now lat lon reqType d) now2 city'
          reqType' =
        getFromCache l now2 city' reqType') := by
  refine ⟨?_, ?_, ?_⟩
  · intro hne
    rw [getFromCache, getFromCache, updateCache]
    apply getFromCacheList_replaceFirstCity_frame
    · exact isMatchCity_mkCity_other _ _ _ _ now d hne
    · intro e he hm
      rw [Bool.eq_false_iff]
      intro hm2
      obtain ⟨h1, h2⟩ := isMatchCity_unique _ _ _ _ e hm hm2
      rcases hne with hne | hne
      · exact hne h1
      · exact hne h2
  · intro hne
    rw [updateCacheByCoords]
    apply getFromCacheByCoords_replaceFirstCoord_frame
    · exact isMatchCoord_mkCoord_other _ _ _ _ _ _ now d hne
    · intro e he hm
      rw [Bool.eq_false_iff]
      intro hm2
      obtain ⟨h1, h2, h3⟩ := isMatchCoord_unique _ _ _ _ _ _ e hm hm2
      rcases hne with hne | hne
      · exact hne (by rw [h1, h2])
      · exact hne h3
  · intro hwf
    constructor
    · rw [updateCache]
      apply getFromCacheByCoords_replaceFirstCity_frame
      · exact isMatchCoord_mkCity _ _ _ _ _ now d
      · intro e he hm
        rw [isMatchCity_iff] at hm
        rcases hwf e he with hcity | ⟨hlat, _⟩
        · rw [hcity] at hm
          exact Option.noConfusion hm.1
        · rw [Bool.eq_false_iff]
          intro hm2
          rw [isMatchCoord_iff] at hm2
          rw [hlat] at hm2
          exact Option.noConfusion hm2.1
    · rw [getFromCache, getFromCache, updateCacheByCoords]
      apply getFromCacheList_replaceFirstCoord_frame
      · exact isMatchCity_mkCoord _ _ _ _ _ now d
      · intro e he hm
        rw [isMatchCoord_iff] at hm
        rcases hwf e he with hcity | ⟨hlat, _⟩
        · rw [Bool.eq_false_iff]
          intro hm2
          rw [isMatchCity_iff] at hm2
          rw [hcity] at hm2
          exact Option.noConfusion hm2.1
        · rw [hlat] at hm
          exact Option.noConfusion hm.1

/-- Witness for C8: upserting "Moscow" leaves the lookup of "london"
unchanged. -/
theorem cache_key_isolation_witness :
    getFromCache (updateCache [mkCityEntry "london" "weather" 0 [("t", "8")]] 5
        "Moscow" "weather" [("t", "1")]) 10 "london" "weather" =
      getFromCache [mkCityEntry "london" "weather" 0 [("t", "8")]] 10 "london"
        "weather" :=
  (cache_key_isolation [mkCityEntry "london" "weather" 0 [("t", "8")]] 5 10
    "Moscow" "weather" "london" "weather" 55 37 55 37 [("t", "1")]).1 (by decide)

/-- Counterexample to C3 as stated: a structurally matching entry whose
`fetched_at` is missing or malformed, or whose `data` is missing, makes
`lookup` raise (`KeyError` from `entry['fetched_at']` / `entry['data']`,
`ValueError` from `datetime.fromisoformat`) instead of returning a value. -/
theorem cache_lookup_raises_counterexample :
    getFromCache [⟨some "moscow", none, none, some "weather", none,
        some [("temp", "1")]⟩] 0 "moscow" "weather" = .error PyErr.keyError
    ∧ getFromCache [⟨some "moscow", none, none, some "weather", some none,
        some [("temp", "1")]⟩] 0 "moscow" "weather" = .error PyErr.valueError
    ∧ getFromCache [⟨some "moscow", none, none, some "weather", some (some 0),
        none⟩] 0 "moscow" "weather" = .error PyErr.keyError
    ∧ getFromCacheByCoords [⟨none, some 55, some 37, some "air_quality", none,
        some [("aqi", "1")]⟩] 0 55 37 "air_quality" =
      .error PyErr.keyError := by decide

/-- C3 (corrected): the no-raise guarantee holds at store granularity and for
well-shaped entries: lookups return a value (never raise) whenever every
structurally matching entry carries a parseable `fetched_at` and a payload,
and an absent/empty/unparseable backing file yields `Miss` without raising;
but entry-shape problems inside a matching entry do raise (see the
counterexample). -/
theorem cache_lookup_no_raise_wellformed (l : List CacheEntry) (now : ℤ)
    (city reqType : String) (lat lon : ℚ)
    (hcity : ∀ e ∈ l, isMatchCity (pyLower city) reqType e = true →
      (∃ t, e.fetched_at = some (some t)) ∧ ∃ p, e.data = some p)
    (hcoord : ∀ e ∈ l, isMatchCoord lat lon reqType e = true →
      (∃ t, e.fetched_at = some (some t)) ∧ ∃ p, e.data = some p) :
    (∃ v, getFromCache l now city reqType = .ok v)
    ∧ (∃ v, getFromCacheByCoords l now lat lon reqType = .ok v)
    ∧ (∀ fs : StoreFile, readCache fs = [] →
      getFromCacheFile fs now city reqType = .ok none
      ∧ getFromCacheByCoordsFile fs now lat lon reqType = .ok none) := by
  refine ⟨getFromCacheList_no_raise l now _ _ hcity,
    getFromCacheByCoords_no_raise l now lat lon _ hcoord, fun fs hfs => ?_⟩
  unfold getFromCacheFile getFromCacheByCoordsFile
  rw [hfs]
  exact ⟨rfl, rfl⟩

/-- Witness for C3 (corrected) at the empty store. -/
theorem cache_lookup_no_raise_wellformed_witness :
    ∃ v, getFromCache [] 0 "moscow" "weather" = .ok v :=
  (cache_lookup_no_raise_wellformed [] 0 "moscow" "weather" 55 37 (by simp)
    (by simp)).1

/-- Counterexample to C4 as stated: whichever way the write fails,
`_write_cache` returns `None` — exactly what it returns on success — so no
`PersistenceError` value reaches the caller. -/
theorem cache_write_error_value_counterexample :
    (writeCache WriteMode.openFail StoreFile.absent []).ret = none
    ∧ (writeCache (WriteMode.dumpFail true) StoreFile.absent []).ret = none
    ∧ (writeCache (WriteMode.dumpFail false) StoreFile.absent []).ret = none
    ∧ (writeCache WriteMode.openFail StoreFile.absent []).ret =
        (writeCache WriteMode.ok StoreFile.absent []).ret := by decide

/-- C4 (corrected): if the underlying write cannot complete, the `IOError` is
caught inside `_write_cache` (the process does not crash) and an error
message is logged to the console, but no error value is returned to the
caller — `_write_cache` and `_update_cache` return `None` on success and
failure alike — and the in-memory result of the triggering operation (the
freshly fetched payload in `get_weather_by_city`) is still returned to the
caller.  The file itself survives only a failure of `open`; a failure during
`json.dump` leaves it truncated (zero-length or unparseable), because
`open(CACHE_FILE, 'w')` truncates before `json.dump` runs. -/
theorem cache_write_failure_nonfatal (fs : StoreFile) (l : List CacheEntry)
    (now : ℤ) (city : String) (d : Payload) (mode : WriteMode)
    (hmode : mode ≠ WriteMode.ok)
    (hmiss : getFromCacheFile fs now city "weather" = .ok none) :
    (writeCache mode fs l).ret = none
    ∧ (writeCache mode fs l).logged = true
    ∧ (writeCache WriteMode.openFail fs l).fs = fs
    ∧ (∀ flushed, (writeCache (WriteMode.dumpFail flushed) fs l).fs =
        if flushed then StoreFile.corrupt else StoreFile.empty)
    ∧ (∀ reqType, (updateCacheFile mode fs now city reqType d).ret = none)
    ∧ ∃ fs2, getWeatherByCity mode fs now city (some d) = .ok (some d, fs2) := by
  have hret : (writeCache mode fs l).ret = none := by
    cases mode <;> rfl
  have hlog : (writeCache mode fs l).logged = true := by
    cases mode with
    | ok => exact absurd rfl hmode
    | openFail => rfl
    | dumpFail flushed => rfl
  refine ⟨hret, hlog, rfl, fun flushed => rfl, fun reqType => ?_, ?_⟩
  · cases mode <;> rfl
  · have hred : getWeatherByCity mode fs now city (some d) =
        if !d.isEmpty then
          Except.ok (some d,
            (updateCacheFile mode fs now ((d.lookup "name").getD city) "weather"
              d).fs)
        else Except.ok (some d, fs) := by
      unfold getWeatherByCity
      rw [hmiss]
      rfl
    rw [hred]
    split
    · exact ⟨_, rfl⟩
    · exact ⟨_, rfl⟩

/-- Witness for C4 (corrected): over a corrupt store with a write that fails
mid-`json.dump`, the fetched payload is still returned to the caller. -/
theorem cache_write_failure_nonfatal_witness :
    ∃ fs2, getWeatherByCity (WriteMode.dumpFail true) StoreFile.corrupt 0
      "paris" (some [("temp", "9")]) = .ok (some [("temp", "9")], fs2) :=
  (cache_write_failure_nonfatal StoreFile.corrupt [] 0 "paris" [("temp", "9")]
    (WriteMode.dumpFail true) (by decide) (by decide)).2.2.2.2.2

/-- C5: with the backing file absent, zero-length, or unparseable, every
lookup (city- or coordinate-keyed) returns `Miss` rather than raising, and a
subsequent upsert whose write completes succeeds and produces a valid
document holding exactly the one new entry. -/
theorem cache_corrupt_store_resilience (fs : StoreFile)
    (hfs : fs = StoreFile.absent ∨ fs = StoreFile.empty ∨ fs = StoreFile.corrupt)
    (now now2 : ℤ) (city reqType : String) (lat lon : ℚ) (d : Payload) :
    getFromCacheFile fs now city reqType = .ok none
    ∧ getFromCacheByCoordsFile fs now lat lon reqType = .ok none
    ∧ updateCacheFile WriteMode.ok fs now2 city reqType d =
        { fs := StoreFile.entries [mkCityEntry (pyLower city) reqType now2 d],
          logged := false, ret := none } := by
  rcases hfs with h | h | h <;> subst h <;> exact ⟨rfl, rfl, rfl⟩

/-- Witness for C5 at a concrete corrupt store. -/
theorem cache_corrupt_store_resilience_witness :
    getFromCacheFile StoreFile.corrupt 0 "paris" "weather" = .ok none :=
  (cache_corrupt_store_resilience StoreFile.corrupt (by decide) 0 5 "paris"
    "weather" 55 37 [("temp", "12")]).1
